import Mathlib

/-!
# ASA v1.1 Job Procurement Model — verification of the classification-and-narrative engine

Shallow embedding of `scripts/score_applications.py` (the canonical engine) and of the
variant module `scripts/metrics_application.py`, over an explicit model of the SQLite
event store (`scripts/migrations/init_schema.py`).

Modelling conventions:
* Python dict rows are embedded as association lists `Row := List (String × Val)`;
  `dict.get(k)` is `Row.get row k : Option Val` (first binding wins, and key assignment
  `row[k] = v` is modelled by prepending the binding).
* Python numbers: SQL counts are `Int` values (`Val.vint`), rates are exact rationals
  (`Val.vrat`); `None` is `Val.vnone`.
* Timestamps are modelled at day granularity as natural numbers, so a `timedelta.days`
  difference between two timestamps is exact integer subtraction.
* Fallible code paths (a `KeyError` from a `row[k]` subscript on a missing key, or a
  `TypeError` from ordering a non-numeric value) are modelled by returning `none` from
  an `Option`-valued embedding.
-/

/-- A Python value as stored in the script's dict rows. -/
inductive Val where
  | vstr : String → Val
  | vint : Int → Val
  | vrat : ℚ → Val
  | vbool : Bool → Val
  | vnone : Val
  | vdict : List (String × Val) → Val

/-- A Python dict row: an association list from string keys to values. -/
def Row : Type := List (String × Val)

/-- `row.get(k)` / `row[k]`: first binding for the key, if any. -/
def Row.get (row : Row) (k : String) : Option Val :=
  (List.find? (fun p => p.1 == k) row).map (fun p => p.2)

/-- Python truthiness of an optional value (`None` and a missing key are falsy). -/
def truthy : Option Val → Bool
  | none => false
  | some .vnone => false
  | some (.vbool b) => b
  | some (.vint n) => !(n == 0)
  | some (.vrat q) => !(q == 0)
  | some (.vstr s) => !(s == "")
  | some (.vdict d) => !d.isEmpty

/-- Numeric view of a value: Python `int`, `float` and `bool` order-compare as numbers;
any other type raises `TypeError` in an ordering comparison, modelled as `none`. -/
def toNum? : Val → Option ℚ
  | .vint m => some (m : ℚ)
  | .vrat q => some q
  | .vbool b => some (if b then 1 else 0)
  | _ => none

/-- Python `v == s` for a string literal `s`: true only for an equal string. -/
def isStr (v : Val) (s : String) : Bool :=
  match v with
  | .vstr t => t == s
  | _ => false

/-- Python `row.get(k) == s`: a missing key (None) never equals a string. -/
def isStrVal (v : Option Val) (s : String) : Bool :=
  match v with
  | some w => isStr w s
  | none => false

/-- Python `v == n` for a numeric literal: numbers compare by value, any other
type compares unequal (no error). -/
def valEqNum (v : Val) (n : ℚ) : Bool :=
  match toNum? v with
  | some q => q == n
  | none => false

/-- `valEqNum` lifted to an optional (subscripted) value; the `none` case is
unreachable on rows built by the pipeline, which always carry the key. -/
def valEqNumOpt (v : Option Val) (n : ℚ) : Bool :=
  match v with
  | some w => valEqNum w n
  | none => false

/-- Value of an optional integer column (`None` ↦ SQL NULL). -/
def optIntVal : Option Int → Val
  | none => .vnone
  | some d => .vint d

-- ==================================================
-- Thresholds (v1.1 – canonical)
-- ==================================================

def IDLE_DAYS_THRESHOLD : Int := 7
def MIN_CHANNEL_SAMPLE_SIZE : Nat := 5
def HIGH_IDLE_RATE_THRESHOLD : ℚ := 3/10
def LOW_FOLLOW_UP_RATE_THRESHOLD : ℚ := 1/2
def STABLE_RESPONSE_COUNT_THRESHOLD : Nat := 3
def CHANNEL_DEPENDENCY_THRESHOLD : ℚ := 3/5
def STABLE_CHANNEL_RATIO_THRESHOLD : ℚ := 3/10
def ACTIVITY_RATE_THRESHOLD : ℚ := 1
def INACTIVITY_RATE_THRESHOLD : ℚ := 1/2

-- ==================================================
-- Event store model (tables of scripts/migrations/init_schema.py)
-- ==================================================

/-- Row of the `applications` table. -/
structure Application where
  application_id : Nat
  company : String
  role : String
  created_at : Nat

/-- Row of the `outreach_events` table. -/
structure OutreachEvent where
  application_id : Nat
  channel : String
  outreach_type : String
  timestamp : Nat

/-- Row of the `response_events` table. -/
structure ResponseEvent where
  application_id : Nat
  channel : String
  response_type : String
  timestamp : Nat

/-- Row of the `status_history` table. -/
structure StatusEntry where
  application_id : Nat
  status : String
  timestamp : Nat

/-- Row of the `application_customization` table (at most one per application). -/
structure CustomizationRecord where
  application_id : Nat
  resume_customized : Bool
  cover_letter_customized : Bool
  timestamp : Nat

/-- A snapshot of the event store, together with the clock used by
`datetime.now(timezone.utc)`. -/
structure DB where
  applications : List Application
  outreach_events : List OutreachEvent
  response_events : List ResponseEvent
  status_history : List StatusEntry
  application_customization : List CustomizationRecord
  now : Nat

namespace ScoreApplications

-- ==================================================
-- Pillar B — application-level counts (score_applications.py B.2)
-- ==================================================

/-- `SELECT COUNT(*) FROM outreach_events WHERE application_id = ?` -/
def total_outreach_count (db : DB) (id : Nat) : Nat :=
  (db.outreach_events.filter (fun e => e.application_id == id)).length

/-- Count of outreach events of kind `follow_up` for the application. -/
def follow_up_count (db : DB) (id : Nat) : Nat :=
  (db.outreach_events.filter
    (fun e => e.application_id == id && e.outreach_type == "follow_up")).length

/-- `SELECT COUNT(*) FROM response_events WHERE application_id = ?` -/
def response_count (db : DB) (id : Nat) : Nat :=
  (db.response_events.filter (fun e => e.application_id == id)).length

/-- `SELECT COUNT(*) FROM status_history WHERE application_id = ?` -/
def status_change_count (db : DB) (id : Nat) : Nat :=
  (db.status_history.filter (fun e => e.application_id == id)).length

/-- B.3: total actions = outreach + responses + status changes. -/
def total_action_count (db : DB) (id : Nat) : Nat :=
  total_outreach_count db id + response_count db id + status_change_count db id

/-- Pure effort proxy (equals `total_action_count`). -/
def effort_score_raw (db : DB) (id : Nat) : Nat :=
  total_action_count db id

-- ==================================================
-- B.1/B.4 — time core and current status
-- ==================================================

/-- Status-history rows of one application. -/
def statusHistoryFor (db : DB) (id : Nat) : List StatusEntry :=
  db.status_history.filter (fun e => e.application_id == id)

/-- `ORDER BY timestamp DESC LIMIT 1`: an entry carrying the maximal timestamp
among the application's status history rows (the first such entry). -/
def latest_status_entry (db : DB) (id : Nat) : Option StatusEntry :=
  match statusHistoryFor db id with
  | [] => none
  | e :: es => some (es.foldl (fun acc x => if acc.timestamp < x.timestamp then x else acc) e)

/-- B.4 `current_status`: status of the latest history entry, defaulting to "open". -/
def current_status (db : DB) (id : Nat) : String :=
  match latest_status_entry db id with
  | none => "open"
  | some e => e.status

/-- B.1 `_latest_timestamp`: `MAX(ts)` over creation time and all event timestamps. -/
def latest_timestamp (db : DB) (id : Nat) : Option Nat :=
  ((db.applications.filter (fun a => a.application_id == id)).map (fun a => a.created_at)
    ++ (db.outreach_events.filter (fun e => e.application_id == id)).map (fun e => e.timestamp)
    ++ (db.response_events.filter (fun e => e.application_id == id)).map (fun e => e.timestamp)
    ++ (statusHistoryFor db id).map (fun e => e.timestamp)).max?

/-- `days_since_last_action`: whole days from the latest event to now, `None` when
the application has no recorded timestamp at all. -/
def days_since_last_action (db : DB) (id : Nat) : Option Int :=
  (latest_timestamp db id).map (fun t => (db.now : Int) - (t : Int))

/-- Customization flags from the (unique) customization record, defaulting to false. -/
def customization_flags (db : DB) (id : Nat) : Bool × Bool :=
  match db.application_customization.find? (fun c => c.application_id == id) with
  | none => (false, false)
  | some c => (c.resume_customized, c.cover_letter_customized)

end ScoreApplications

namespace MetricsApplication

-- ==================================================
-- scripts/metrics_application.py — variant per-application metrics
-- ==================================================

/-- Variant `total_action_count`: status changes + outreach only (no responses). -/
def total_action_count (db : DB) (id : Nat) : Nat :=
  ScoreApplications.status_change_count db id + ScoreApplications.total_outreach_count db id

/-- Variant `current_status`: status of the latest history entry, `None` (not "open")
when the application has no status history. -/
def current_status (db : DB) (id : Nat) : Option String :=
  (ScoreApplications.latest_status_entry db id).map (fun e => e.status)

end MetricsApplication

namespace ScoreApplications

-- ==================================================
-- B.5 — Application Metrics View (canonical)
-- ==================================================

/-- The dict literal built for one application by `application_metrics_view`
(one binding per key, in source order). -/
def appMetricsRow (id : Nat) (status : String) (days : Option Int)
    (outreach_total follow_ups : Nat) (responded : Bool) (total_action : Nat)
    (resume cover : Bool) : Row :=
  [("application_id", .vint (id : Int)),
   ("current_status", .vstr status),
   ("days_since_last_action", optIntVal days),
   ("total_outreach_count", .vint (outreach_total : Int)),
   ("follow_up_count", .vint (follow_ups : Int)),
   ("has_follow_up", .vbool (decide (0 < follow_ups))),
   ("responded_flag", .vbool responded),
   ("total_action_count", .vint (total_action : Int)),
   ("effort_score_raw", .vint (total_action : Int)),
   ("has_zero_outreach", .vbool (outreach_total == 0)),
   ("has_no_follow_up", .vbool (decide (0 < outreach_total) && (follow_ups == 0))),
   ("is_idle_application",
     .vbool (match days with
             | some d => decide (IDLE_DAYS_THRESHOLD < d)
             | none => false)),
   ("resume_customized", .vbool resume),
   ("cover_letter_customized", .vbool cover),
   ("any_customization", .vbool (resume || cover))]

/-- `application_metrics_view`: one metrics row per application. -/
def application_metrics_view (db : DB) : List Row :=
  db.applications.map (fun a =>
    appMetricsRow a.application_id
      (current_status db a.application_id)
      (days_since_last_action db a.application_id)
      (total_outreach_count db a.application_id)
      (follow_up_count db a.application_id)
      (decide (0 < response_count db a.application_id))
      (total_action_count db a.application_id)
      (customization_flags db a.application_id).1
      (customization_flags db a.application_id).2)

-- ==================================================
-- B.6 — Channel Metrics View (canonical)
-- ==================================================

/-- Outreach events on one channel. -/
def outreach_count_by_channel (db : DB) (c : String) : Nat :=
  (db.outreach_events.filter (fun e => e.channel == c)).length

/-- `COUNT(DISTINCT application_id)` of outreach events on one channel. -/
def application_coverage_by_channel (db : DB) (c : String) : Nat :=
  (((db.outreach_events.filter (fun e => e.channel == c)).map
      (fun e => e.application_id)).eraseDups).length

/-- Response events on one channel. -/
def response_count_by_channel (db : DB) (c : String) : Nat :=
  (db.response_events.filter (fun e => e.channel == c)).length

/-- The dict literal built for one channel by `channel_metrics_view`. -/
def channelMetricsRow (name : String) (outreach_count coverage responses : Nat) : Row :=
  [("channel_name", .vstr name),
   ("outreach_count_by_channel", .vint (outreach_count : Int)),
   ("application_coverage_by_channel", .vint (coverage : Int)),
   ("response_count_by_channel", .vint (responses : Int)),
   ("response_rate_by_channel",
     if 0 < coverage then .vrat ((responses : ℚ) / (coverage : ℚ)) else .vnone),
   ("is_low_sample_channel", .vbool (decide (outreach_count < MIN_CHANNEL_SAMPLE_SIZE)))]

/-- `channel_metrics_view`: one metrics row per distinct outreach channel. -/
def channel_metrics_view (db : DB) : List Row :=
  ((db.outreach_events.map (fun e => e.channel)).eraseDups).map (fun c =>
    channelMetricsRow c
      (outreach_count_by_channel db c)
      (application_coverage_by_channel db c)
      (response_count_by_channel db c))

-- ==================================================
-- Pillar B — Portfolio Metrics View
-- ==================================================

/-- Sentinel row returned for an empty application set ("no pattern can be derived"). -/
def portfolio_sentinel_row : Row :=
  [("applications_total", .vint 0),
   ("applications_per_week", .vnone),
   ("follow_up_rate", .vnone),
   ("zero_outreach_rate", .vnone),
   ("idle_application_rate", .vnone),
   ("high_idle_portfolio", .vnone),
   ("low_follow_up_portfolio", .vnone)]

/-- `weeks_active = max(1, ((end - start).days + 6) // 7)` for creation timestamps
`mn ≤ mx` measured in days. -/
def weeks_active (mn mx : Nat) : Nat :=
  max 1 ((mx - mn + 6) / 7)

/-- `portfolio_metrics_view`: portfolio-wide aggregate rates over all metrics rows. -/
def portfolio_metrics_view (db : DB) : Row :=
  let app_rows := application_metrics_view db
  let total := app_rows.length
  if total = 0 then portfolio_sentinel_row
  else
    let follow_up_rate : ℚ :=
      ((app_rows.countP (fun r => truthy (Row.get r "has_follow_up"))) : ℚ) / (total : ℚ)
    let zero_outreach_rate : ℚ :=
      ((app_rows.countP (fun r => valEqNumOpt (Row.get r "total_outreach_count") 0)) : ℚ) / (total : ℚ)
    let idle_application_rate : ℚ :=
      ((app_rows.countP (fun r => truthy (Row.get r "is_idle_application"))) : ℚ) / (total : ℚ)
    let created := db.applications.map (fun a => a.created_at)
    let applications_per_week : Val :=
      match created.min?, created.max? with
      | some mn, some mx => .vrat ((total : ℚ) / (weeks_active mn mx : ℚ))
      | _, _ => .vnone
    [("applications_total", .vint (total : Int)),
     ("applications_per_week", applications_per_week),
     ("follow_up_rate", .vrat follow_up_rate),
     ("zero_outreach_rate", .vrat zero_outreach_rate),
     ("idle_application_rate", .vrat idle_application_rate),
     ("high_idle_portfolio", .vbool (decide (HIGH_IDLE_RATE_THRESHOLD < idle_application_rate))),
     ("low_follow_up_portfolio", .vbool (decide (follow_up_rate < LOW_FOLLOW_UP_RATE_THRESHOLD)))]

-- ==================================================
-- Pillar C.1 — Application State
-- ==================================================

/-- `application_state`: canonical state of one application metrics row.
Precedence: closed → unengaged → engaged_idle → active.  A missing subscripted
key or a non-numeric `days_since_last_action` is a Python error (`none`). -/
def application_state (row : Row) : Option String :=
  match Row.get row "current_status" with
  | none => none
  | some st =>
    if isStr st "closed" then some "closed"
    else
      match Row.get row "total_outreach_count" with
      | none => none
      | some oc =>
        if valEqNum oc 0 then some "unengaged"
        else
          match Row.get row "days_since_last_action" with
          | none => some "active"
          | some .vnone => some "active"
          | some dv =>
            match toNum? dv with
            | none => none
            | some d =>
              if (IDLE_DAYS_THRESHOLD : ℚ) < d then some "engaged_idle" else some "active"

-- ==================================================
-- Pillar C.2 — Channel Signal State
-- ==================================================

/-- `channel_signal_state`: signal strength label and side flags for one channel row.
Precedence: no_signal → insufficient_data → stable_signal → emerging_signal. -/
def channel_signal_state (row : Row) : Option (String × Row) :=
  match Row.get row "outreach_count_by_channel", Row.get row "response_count_by_channel" with
  | some oc, some rc =>
    let flags : Row := [("no_response_flag", .vbool (valEqNum rc 0))]
    if valEqNum rc 0 then some ("no_signal", flags)
    else
      match toNum? oc with
      | none => none
      | some ocq =>
        if ocq < (MIN_CHANNEL_SAMPLE_SIZE : ℚ) then some ("insufficient_data", flags)
        else
          match toNum? rc with
          | none => none
          | some rcq =>
            if (STABLE_RESPONSE_COUNT_THRESHOLD : ℚ) ≤ rcq then some ("stable_signal", flags)
            else some ("emerging_signal", flags)
  | _, _ => none

/-- `channel_signal_state_view`: channel metrics rows augmented with the state and flags. -/
def channel_signal_state_view (db : DB) : Option (List Row) :=
  (channel_metrics_view db).mapM (fun r =>
    (channel_signal_state r).map (fun sf =>
      ("channel_flags", Val.vdict sf.2) :: ("channel_signal_state", Val.vstr sf.1) :: r))

-- ==================================================
-- Pillar C.3 — Portfolio Pattern
-- ==================================================

/-- `portfolio_pattern`: dominant behavioural pattern of the portfolio row.
The three rate keys are subscripted up front; `high_idle_portfolio` is only read
once `applications_per_week ≥ ACTIVITY_RATE_THRESHOLD` (short-circuit of rule 2),
and the idle/follow-up comparisons only happen in rules 3–4. -/
def portfolio_pattern (row : Row) : Option String :=
  match Row.get row "applications_per_week", Row.get row "idle_application_rate",
        Row.get row "follow_up_rate" with
  | some apw, some idle, some fur =>
    match apw with
    | .vnone => some "inactive"
    | _ =>
      match toNum? apw with
      | none => none
      | some q =>
        if q < INACTIVITY_RATE_THRESHOLD then some "inactive"
        else if q < ACTIVITY_RATE_THRESHOLD then some "unstructured_bursting"
        else
          match Row.get row "high_idle_portfolio" with
          | none => none
          | some hi =>
            if truthy (some hi) then some "stalled"
            else
              match toNum? idle with
              | none => none
              | some iq =>
                if HIGH_IDLE_RATE_THRESHOLD ≤ iq then some "unstructured_bursting"
                else
                  match toNum? fur with
                  | none => none
                  | some fq =>
                    if LOW_FOLLOW_UP_RATE_THRESHOLD ≤ fq then some "steady_engagement"
                    else some "unstructured_bursting"
  | _, _, _ => none

/-- Is a channel row in `stable_signal`?  (Python `c["channel_signal_state"] == "stable_signal"`.) -/
def isStableState : Val → Bool :=
  fun v => isStr v "stable_signal"

/-- `portfolio_pattern_view`: attaches the pattern and the two structural flags. -/
def portfolio_pattern_view (db : DB) : Option Row :=
  let row0 := portfolio_metrics_view db
  match portfolio_pattern row0 with
  | none => none
  | some pat =>
    let row1 : Row := ("portfolio_pattern", Val.vstr pat) :: row0
    match channel_signal_state_view db with
    | none => none
    | some channel_rows =>
      match channel_rows.mapM (fun c => Row.get c "channel_signal_state") with
      | none => none
      | some states =>
        let stable_channels := states.countP isStableState
        let total_channels := max 1 channel_rows.length
        let row2 : Row :=
          ("low_signal_environment_flag",
            Val.vbool (decide (((stable_channels : ℚ) / (total_channels : ℚ))
                                < STABLE_CHANNEL_RATIO_THRESHOLD))) :: row1
        match channel_rows.mapM (fun c =>
            match Row.get c "response_count_by_channel" with
            | some (.vint n) => some n
            | _ => none) with
        | none => none
        | some resps =>
          let total_responses := resps.sum
          let max_responses := match resps with
            | [] => 0
            | x :: xs => xs.foldl max x
          let dep : Bool :=
            if total_responses = 0 then false
            else decide (CHANNEL_DEPENDENCY_THRESHOLD
                          ≤ (max_responses : ℚ) / (total_responses : ℚ))
          some (("channel_dependency_flag", Val.vbool dep) :: row2)

-- ==================================================
-- Pillar D — Narratives, suppression, orchestration
-- ==================================================

/-- D.1.1 base-sentence templates per application state (the Python table maps each
state to `{"base": sentence}`; flattened here to state → base sentence). -/
def APPLICATION_STATE_TEMPLATES : List (String × String) :=
  [("unengaged", "This application has been submitted, but no outreach has been logged yet."),
   ("engaged_idle", "Outreach has occurred, but there has been no recent activity on this application."),
   ("active", "This application has ongoing outreach activity."),
   ("closed", "This application is marked as closed.")]

/-- D.1.1 flag templates, in dict insertion order (scanned first-match-wins). -/
def APPLICATION_FLAG_TEMPLATES : List (String × String) :=
  [("responded_flag", "A response has been received for this application."),
   ("no_follow_up_flag", "No follow-up has been logged after initial outreach.")]

/-- `TEMPLATES.get(state)` for a possibly-missing, possibly-non-string key. -/
def lookupTemplate (table : List (String × String)) (v : Option Val) : Option String :=
  match v with
  | some (.vstr k) => (table.find? (fun p => p.1 == k)).map (fun p => p.2)
  | _ => none

/-- D.1.2 `_assemble_application_narrative`: base sentence plus at most one modifier. -/
def assemble_application_narrative (state : Option Val) (flags : Row) : List String :=
  match lookupTemplate APPLICATION_STATE_TEMPLATES state with
  | none => []
  | some base =>
    match APPLICATION_FLAG_TEMPLATES.find? (fun p => truthy (Row.get flags p.1)) with
    | none => [base]
    | some p => [base, p.2]

/-- D.1.3 `describe_application`. -/
def describe_application (application_state : Option Val)
    (no_follow_up_flag responded_flag : Bool) : List String :=
  assemble_application_narrative application_state
    [("no_follow_up_flag", .vbool no_follow_up_flag),
     ("responded_flag", .vbool responded_flag)]

/-- D.2.1 channel signal templates. -/
def CHANNEL_SIGNAL_TEMPLATES : List (String × String) :=
  [("no_signal", "This channel has not produced any responses yet."),
   ("insufficient_data", "This channel has produced some responses, but there is not yet enough data to interpret patterns."),
   ("emerging_signal", "This channel is beginning to show response patterns, though the signal is still forming."),
   ("stable_signal", "This channel has produced enough activity to support reliable pattern observation.")]

/-- D.2.1 channel flag templates. -/
def CHANNEL_FLAG_TEMPLATES : List (String × String) :=
  [("no_response_flag", "No responses have been observed on this channel so far.")]

/-- The flags dict of a channel row (`row.get("channel_flags", ...)`); the script only
ever stores a dict under this key. -/
def channelFlagsOf (row : Row) : Row :=
  match Row.get row "channel_flags" with
  | some (.vdict d) => d
  | _ => []

/-- D.2.2 `_eligible_channel_sentences`: base sentence plus optional modifiers,
suppressed entirely for weak-signal states. -/
def eligible_channel_sentences (row : Row) : Option String × List String :=
  let state := Row.get row "channel_signal_state"
  let flags := channelFlagsOf row
  match lookupTemplate CHANNEL_SIGNAL_TEMPLATES state with
  | none => (none, [])
  | some base =>
    if isStrVal state "no_signal" || isStrVal state "insufficient_data" then (some base, [])
    else
      (some base, (CHANNEL_FLAG_TEMPLATES.filter (fun p => truthy (Row.get flags p.1))).map
               (fun p => p.2))

/-- D.2.3 `_assemble_channel_summary`: base sentence plus at most one modifier. -/
def assemble_channel_summary (row : Row) : List String :=
  match eligible_channel_sentences row with
  | (none, _) => []
  | (some base, []) => [base]
  | (some base, s :: _) => [base, s]

/-- D.2.4 `describe_channel`. -/
def describe_channel (row : Row) : List String :=
  assemble_channel_summary row

/-- D.3.1 portfolio pattern templates. -/
def PORTFOLIO_PATTERN_TEMPLATES : List (String × String) :=
  [("inactive", "Overall activity across applications has been limited recently."),
   ("unstructured_bursting", "Applications are being submitted, but engagement across them has been uneven."),
   ("steady_engagement", "Applications are being submitted and engaged with consistently."),
   ("stalled", "Earlier activity occurred, but many applications have since become inactive.")]

/-- D.3.1 portfolio flag templates, in dict insertion order. -/
def PORTFOLIO_FLAG_TEMPLATES : List (String × String) :=
  [("low_follow_up_portfolio_flag", "Follow-up activity has been limited across applications."),
   ("high_idle_portfolio_flag", "A sizable portion of applications have not been touched recently."),
   ("channel_dependency_flag", "Most responses have come from a single outreach channel."),
   ("low_signal_environment_flag", "Across channels, response signals remain limited.")]

/-- D.3.2 `_eligible_portfolio_sentences`: primary sentence keyed by the pattern plus
flagged secondary (flag, sentence) pairs; when the pattern is `stalled` the
high-idle pair is suppressed as redundant. -/
def eligible_portfolio_sentences (row : Row) : Option String × List (String × String) :=
  let pattern := Row.get row "portfolio_pattern"
  match lookupTemplate PORTFOLIO_PATTERN_TEMPLATES pattern with
  | none => (none, [])
  | some primary =>
    let secondary := PORTFOLIO_FLAG_TEMPLATES.filter (fun p => truthy (Row.get row p.1))
    let secondary :=
      if isStrVal pattern "stalled" then
        secondary.filter (fun p => !(p.1 == "high_idle_portfolio_flag"))
      else secondary
    (some primary, secondary)

/-- D.3.3 fixed priority order of portfolio secondary sentences. -/
def portfolio_priority_order : List String :=
  ["channel_dependency_flag", "low_follow_up_portfolio_flag",
   "high_idle_portfolio_flag", "low_signal_environment_flag"]

/-- D.3.3 `_assemble_portfolio_summary`: primary sentence plus up to two secondary
sentences re-ordered by the fixed priority list. -/
def assemble_portfolio_summary (row : Row) : List String :=
  match eligible_portfolio_sentences row with
  | (none, _) => []
  | (some primary, secondary) =>
    let ordered := portfolio_priority_order.flatMap (fun flag =>
      (secondary.filter (fun p => p.1 == flag)).map (fun p => p.2))
    primary :: ordered.take 2

/-- D.3.4 `describe_portfolio`. -/
def describe_portfolio (row : Row) : List String :=
  assemble_portfolio_summary row

-- ==================================================
-- D.4 — Global orchestration & suppression
-- ==================================================

def MAX_APPLICATIONS_DISPLAYED : Nat := 5
def MAX_APPLICATION_SENTENCES : Nat := 2
def MAX_CHANNEL_SENTENCES : Nat := 1
def MAX_PORTFOLIO_SENTENCES : Nat := 3

/-- D.4.2 application filter: closed applications may not surface alongside active
ones; when every application is closed the original list is returned. -/
def filter_active_applications (rows : List Row) : List Row :=
  let active := rows.filter (fun r => !(isStrVal (Row.get r "application_state") "closed"))
  if active.isEmpty then rows else active

/-- D.4.2 channel filter: suppresses channels with no meaningful signal. -/
def filter_low_signal_channels (rows : List Row) : List Row :=
  rows.filter (fun r =>
    !(isStrVal (Row.get r "channel_signal_state") "no_signal"
      || isStrVal (Row.get r "channel_signal_state") "insufficient_data"))

/-- One application entry of the insight bundle. -/
structure AppEntry where
  application_id : Option Val
  sentences : List String

/-- One channel entry of the insight bundle. -/
structure ChannelEntry where
  channel_name : Option Val
  sentences : List String

/-- The insight bundle. -/
structure Bundle where
  portfolio : List String
  applications : List AppEntry
  channels : List ChannelEntry

/-- D.4.3 `assemble_insight_bundle`: orchestrates the three narrative levels with
strict suppression and defensive sentence re-clamps. -/
def assemble_insight_bundle (application_rows channel_rows : List Row)
    (portfolio_row : Row) (include_channels : Bool := true) : Bundle :=
  let portfolio := (describe_portfolio portfolio_row).take MAX_PORTFOLIO_SENTENCES
  let filtered_apps := filter_active_applications application_rows
  let applications := (filtered_apps.take MAX_APPLICATIONS_DISPLAYED).filterMap (fun r =>
    let narrative := describe_application (Row.get r "application_state")
      (truthy (Row.get r "has_no_follow_up")) (truthy (Row.get r "responded_flag"))
    if narrative.isEmpty then none
    else some { application_id := Row.get r "application_id"
                sentences := narrative.take MAX_APPLICATION_SENTENCES })
  let channels :=
    if include_channels then
      (filter_low_signal_channels channel_rows).filterMap (fun r =>
        let summary := describe_channel r
        if summary.isEmpty then none
        else some { channel_name := Row.get r "channel_name"
                    sentences := summary.take MAX_CHANNEL_SENTENCES })
    else []
  { portfolio := portfolio, applications := applications, channels := channels }

end ScoreApplications

-- ==================================================
-- Concrete event-store snapshots and rows used as evaluation inputs
-- ==================================================

/-- An empty event store. -/
def dbEmpty : DB :=
  { applications := [], outreach_events := [], response_events := [],
    status_history := [], application_customization := [], now := 0 }

/-- One application with no status history, no events. -/
def dbNoStatus : DB :=
  { applications := [⟨1, "Acme", "Engineer", 0⟩], outreach_events := [],
    response_events := [], status_history := [], application_customization := [],
    now := 10 }

/-- One application with two status entries, the later one "closed". -/
def dbWithStatus : DB :=
  { applications := [⟨1, "Acme", "Engineer", 0⟩], outreach_events := [],
    response_events := [],
    status_history := [⟨1, "open", 5⟩, ⟨1, "closed", 9⟩],
    application_customization := [], now := 10 }

/-- One application with one outreach event, one response event, one status entry. -/
def dbOneOfEach : DB :=
  { applications := [⟨1, "Acme", "Engineer", 0⟩],
    outreach_events := [⟨1, "email", "initial", 1⟩],
    response_events := [⟨1, "email", "reply", 2⟩],
    status_history := [⟨1, "interviewing", 3⟩],
    application_customization := [], now := 10 }

/-- Two applications created ten days apart. -/
def dbTwoApps : DB :=
  { applications := [⟨1, "Acme", "Engineer", 0⟩, ⟨2, "Globex", "Analyst", 10⟩],
    outreach_events := [], response_events := [], status_history := [],
    application_customization := [], now := 12 }

/-- A portfolio row whose pattern is `stalled` and whose high-idle flag is set. -/
def rowStalledHighIdle : Row :=
  [("portfolio_pattern", .vstr "stalled"),
   ("high_idle_portfolio_flag", .vbool true),
   ("channel_dependency_flag", .vbool true)]

/-- The row `portfolio_pattern_view` produces on the empty event store. -/
def rowPipelineEmpty : Row :=
  [("channel_dependency_flag", .vbool false),
   ("low_signal_environment_flag", .vbool true),
   ("portfolio_pattern", .vstr "inactive"),
   ("applications_total", .vint 0),
   ("applications_per_week", .vnone),
   ("follow_up_rate", .vnone),
   ("zero_outreach_rate", .vnone),
   ("idle_application_rate", .vnone),
   ("high_idle_portfolio", .vnone),
   ("low_follow_up_portfolio", .vnone)]

/-- An application row in state "closed". -/
def rowClosedApp : Row :=
  [("application_id", .vint 1), ("application_state", .vstr "closed")]

/-- An application row in state "active". -/
def rowActiveApp : Row :=
  [("application_id", .vint 2), ("application_state", .vstr "active")]

-- ==================================================
-- Helper lemmas
-- ==================================================

/-- Every sentence of a portfolio narrative is either the primary sentence looked up
from the pattern templates, or the sentence of a flag-template pair whose flag is
truthy on the row — and, when the pattern is `stalled`, that flag is never the
high-idle flag (redundancy suppression). -/
lemma describe_portfolio_mem (row : Row) (s : String)
    (hs : s ∈ ScoreApplications.describe_portfolio row) :
    ScoreApplications.lookupTemplate ScoreApplications.PORTFOLIO_PATTERN_TEMPLATES
        (Row.get row "portfolio_pattern") = some s
    ∨ ∃ f sentence, (f, sentence) ∈ ScoreApplications.PORTFOLIO_FLAG_TEMPLATES
        ∧ s = sentence ∧ truthy (Row.get row f) = true
        ∧ (isStrVal (Row.get row "portfolio_pattern") "stalled" = true
            → f ≠ "high_idle_portfolio_flag") := by
  simp only [ScoreApplications.describe_portfolio,
    ScoreApplications.assemble_portfolio_summary,
    ScoreApplications.eligible_portfolio_sentences] at hs
  cases hlp : ScoreApplications.lookupTemplate ScoreApplications.PORTFOLIO_PATTERN_TEMPLATES
      (Row.get row "portfolio_pattern") with
  | none => rw [hlp] at hs; simp at hs
  | some primary =>
    rw [hlp] at hs
    simp only [List.mem_cons] at hs
    rcases hs with hs | hs
    · left; rw [hs]
    · right
      have hs' := List.mem_of_mem_take hs
      rw [List.mem_flatMap] at hs'
      obtain ⟨flag, _, hs2⟩ := hs'
      rw [List.mem_map] at hs2
      obtain ⟨p, hp, hps⟩ := hs2
      rw [List.mem_filter] at hp
      obtain ⟨hpsec, _⟩ := hp
      by_cases hstall : isStrVal (Row.get row "portfolio_pattern") "stalled" = true
      · rw [if_pos hstall, List.mem_filter] at hpsec
        obtain ⟨hpsec', hnothi⟩ := hpsec
        rw [List.mem_filter] at hpsec'
        refine ⟨p.1, p.2, hpsec'.1, hps.symm, hpsec'.2, fun _ => ?_⟩
        intro hcon
        rw [hcon] at hnothi
        simp at hnothi
      · rw [if_neg hstall, List.mem_filter] at hpsec
        exact ⟨p.1, p.2, hpsec.1, hps.symm, hpsec.2, fun hc => absurd hc hstall⟩

/-- A successful template lookup returns a sentence of the table. -/
lemma lookupTemplate_mem_values (table : List (String × String)) (v : Option Val)
    (s : String) (h : ScoreApplications.lookupTemplate table v = some s) :
    ∃ k, (k, s) ∈ table := by
  unfold ScoreApplications.lookupTemplate at h
  cases v with
  | none => simp at h
  | some w =>
    cases w with
    | vstr k =>
      rw [Option.map_eq_some'] at h
      obtain ⟨p, hfind, hp2⟩ := h
      exact ⟨p.1, by rw [← hp2]; exact List.mem_of_find?_eq_some hfind⟩
    | vint n => simp at h
    | vrat q => simp at h
    | vbool b => simp at h
    | vnone => simp at h
    | vdict d => simp at h

/-- The portfolio metrics view stores its booleans under `low_follow_up_portfolio`
and `high_idle_portfolio`: the `_flag`-suffixed keys are absent from its rows. -/
lemma portfolio_metrics_view_flag_keys_none (db : DB) :
    Row.get (ScoreApplications.portfolio_metrics_view db) "low_follow_up_portfolio_flag" = none
    ∧ Row.get (ScoreApplications.portfolio_metrics_view db) "high_idle_portfolio_flag" = none := by
  unfold ScoreApplications.portfolio_metrics_view
  by_cases h : (ScoreApplications.application_metrics_view db).length = 0 <;>
    simp [h, Row.get, ScoreApplications.portfolio_sentinel_row, List.find?]

/-- Looking up a key on a dict with one more binding steps over a different key. -/
lemma Row.get_cons (k k' : String) (v : Val) (row : Row) :
    Row.get ((k', v) :: row) k = if (k' == k) = true then some v else Row.get row k := by
  cases h : (k' == k) <;> simp [Row.get, List.find?, h]

/-- Which flag a portfolio flag-template sentence belongs to. -/
lemma portfolio_flag_template_inv (f sentence : String)
    (hmem : (f, sentence) ∈ ScoreApplications.PORTFOLIO_FLAG_TEMPLATES) :
    (sentence = "Follow-up activity has been limited across applications."
      → f = "low_follow_up_portfolio_flag")
    ∧ (sentence = "A sizable portion of applications have not been touched recently."
      → f = "high_idle_portfolio_flag") := by
  simp only [ScoreApplications.PORTFOLIO_FLAG_TEMPLATES, List.mem_cons,
    List.not_mem_nil, or_false, Prod.mk.injEq] at hmem
  rcases hmem with ⟨hf, hs⟩ | ⟨hf, hs⟩ | ⟨hf, hs⟩ | ⟨hf, hs⟩ <;> subst hf <;> subst hs <;>
    exact ⟨fun h => by first | rfl | exact absurd h (by decide),
           fun h => by first | rfl | exact absurd h (by decide)⟩

/-- The fold used by `latest_status_entry` returns an element of `e :: es` whose
timestamp bounds every element's timestamp from above. -/
lemma latest_fold_spec (e : StatusEntry) (es : List StatusEntry) :
    (es.foldl (fun acc x => if acc.timestamp < x.timestamp then x else acc) e ∈ e :: es)
    ∧ e.timestamp
        ≤ (es.foldl (fun acc x => if acc.timestamp < x.timestamp then x else acc) e).timestamp
    ∧ ∀ x ∈ es, x.timestamp
        ≤ (es.foldl (fun acc x => if acc.timestamp < x.timestamp then x else acc) e).timestamp := by
  induction es generalizing e with
  | nil => simp
  | cons a as ih =>
    simp only [List.foldl_cons]
    by_cases h : e.timestamp < a.timestamp
    · obtain ⟨hmem, hge, hall⟩ := ih a
      rw [if_pos h]
      refine ⟨?_, ?_, ?_⟩
      · rcases List.mem_cons.mp hmem with h1 | h1
        · exact List.mem_cons.mpr (Or.inr (List.mem_cons.mpr (Or.inl h1)))
        · exact List.mem_cons.mpr (Or.inr (List.mem_cons.mpr (Or.inr h1)))
      · exact le_trans (le_of_lt h) hge
      · intro x hx
        rcases List.mem_cons.mp hx with h1 | h1
        · rw [h1]; exact hge
        · exact hall x h1
    · obtain ⟨hmem, hge, hall⟩ := ih e
      rw [if_neg h]
      refine ⟨?_, hge, ?_⟩
      · rcases List.mem_cons.mp hmem with h1 | h1
        · exact List.mem_cons.mpr (Or.inl h1)
        · exact List.mem_cons.mpr (Or.inr (List.mem_cons.mpr (Or.inr h1)))
      · intro x hx
        rcases List.mem_cons.mp hx with h1 | h1
        · rw [h1]; exact le_trans (le_of_not_lt h) hge
        · exact hall x h1

/-- Natural division `(d + 6) / 7` is the ceiling of `d / 7`. -/
lemma ceil_div_seven (d : ℕ) : (d + 6) / 7 = ⌈(d : ℚ) / 7⌉₊ := by
  rcases Nat.eq_zero_or_pos d with h | h
  · subst h; norm_num
  · have hdm := Nat.div_add_mod (d + 6) 7
    have hm : (d + 6) % 7 < 7 := Nat.mod_lt _ (by norm_num)
    rw [eq_comm, Nat.ceil_eq_iff (by omega : (d + 6) / 7 ≠ 0)]
    constructor
    · rw [lt_div_iff₀ (by norm_num : (0 : ℚ) < 7)]
      exact_mod_cast (show ((d + 6) / 7 - 1) * 7 < d by omega)
    · rw [div_le_iff₀ (by norm_num : (0 : ℚ) < 7)]
      exact_mod_cast (show d ≤ ((d + 6) / 7) * 7 by omega)

-- ==================================================
-- Theorems
-- ==================================================

/-- Claim C1: on every application metrics row, `application_state` returns exactly
one of the four labels {closed, unengaged, engaged_idle, active}, with precedence:
`current_status == "closed"` gives closed regardless of all other fields; otherwise
zero outreach gives unengaged; otherwise a known `days_since_last_action` strictly
above `IDLE_DAYS_THRESHOLD` (7) gives engaged_idle; otherwise active. -/
theorem claim1_application_state_total (id : Nat) (status : String) (days : Option Int)
    (oc fu : Nat) (responded : Bool) (ta : Nat) (resume cover : Bool) :
    ∃ st, ScoreApplications.application_state
        (ScoreApplications.appMetricsRow id status days oc fu responded ta resume cover)
        = some st
      ∧ st = (if status = "closed" then "closed"
              else if oc = 0 then "unengaged"
              else match days with
                   | some d => if IDLE_DAYS_THRESHOLD < d then "engaged_idle" else "active"
                   | none => "active")
      ∧ st ∈ ["closed", "unengaged", "engaged_idle", "active"] := by
  have hst : Row.get (ScoreApplications.appMetricsRow id status days oc fu responded ta resume cover)
      "current_status" = some (.vstr status) := rfl
  have hoc : Row.get (ScoreApplications.appMetricsRow id status days oc fu responded ta resume cover)
      "total_outreach_count" = some (.vint (oc : Int)) := rfl
  have hdays : Row.get (ScoreApplications.appMetricsRow id status days oc fu responded ta resume cover)
      "days_since_last_action" = some (optIntVal days) := rfl
  refine ⟨_, ?_, rfl, ?_⟩
  · rw [ScoreApplications.application_state, hst, hoc, hdays]
    by_cases hc : status = "closed"
    · simp [isStr, hc]
    · simp only [isStr, beq_iff_eq, hc, if_false, ite_false]
      by_cases hz : oc = 0
      · simp [valEqNum, toNum?, hz]
      · have hvz : valEqNum (Val.vint (oc : Int)) 0 = false := by
          simp [valEqNum, toNum?, hz]
        simp only [hvz, Bool.false_eq_true, if_false, hz, ite_false]
        cases days with
        | none => simp [optIntVal]
        | some d =>
          simp only [optIntVal, toNum?]
          by_cases hd : IDLE_DAYS_THRESHOLD < d
          · have : (IDLE_DAYS_THRESHOLD : ℚ) < (d : ℚ) := by exact_mod_cast hd
            simp [this, hd]
          · have : ¬ (IDLE_DAYS_THRESHOLD : ℚ) < (d : ℚ) := by exact_mod_cast hd
            simp [this, hd]
  · cases days with
    | none => by_cases hc : status = "closed" <;> by_cases hz : oc = 0 <;> simp [hc, hz]
    | some d =>
      by_cases hc : status = "closed" <;> by_cases hz : oc = 0 <;>
        by_cases hd : IDLE_DAYS_THRESHOLD < d <;> simp [hc, hz, hd]

/-- Claim C2: on every channel metrics row, `channel_signal_state` returns `no_signal`
iff `response_count_by_channel = 0`, returns `stable_signal` only when
`response_count_by_channel ≥ STABLE_RESPONSE_COUNT_THRESHOLD` (3) and
`outreach_count_by_channel ≥ MIN_CHANNEL_SAMPLE_SIZE` (5), and the precedence is
no_signal, then insufficient_data, then stable_signal, then emerging_signal. -/
theorem claim2_channel_signal_state_spec (name : String) (oc cov rc : Nat) :
    ∃ st fl, ScoreApplications.channel_signal_state
        (ScoreApplications.channelMetricsRow name oc cov rc) = some (st, fl)
      ∧ st = (if rc = 0 then "no_signal"
              else if oc < MIN_CHANNEL_SAMPLE_SIZE then "insufficient_data"
              else if STABLE_RESPONSE_COUNT_THRESHOLD ≤ rc then "stable_signal"
              else "emerging_signal")
      ∧ (st = "no_signal" ↔ rc = 0)
      ∧ (st = "stable_signal" →
          STABLE_RESPONSE_COUNT_THRESHOLD ≤ rc ∧ MIN_CHANNEL_SAMPLE_SIZE ≤ oc)
      ∧ fl = [("no_response_flag", Val.vbool (decide (rc = 0)))] := by
  have ho : Row.get (ScoreApplications.channelMetricsRow name oc cov rc)
      "outreach_count_by_channel" = some (.vint (oc : Int)) := rfl
  have hr : Row.get (ScoreApplications.channelMetricsRow name oc cov rc)
      "response_count_by_channel" = some (.vint (rc : Int)) := rfl
  have hvz : valEqNum (Val.vint (rc : Int)) 0 = decide (rc = 0) := by
    by_cases hz : rc = 0 <;> simp [valEqNum, toNum?, hz]
  have hoq : (((oc : Int) : ℚ) < (MIN_CHANNEL_SAMPLE_SIZE : ℚ))
      ↔ oc < MIN_CHANNEL_SAMPLE_SIZE := by exact_mod_cast Iff.rfl
  have hrq : ((STABLE_RESPONSE_COUNT_THRESHOLD : ℚ) ≤ ((rc : Int) : ℚ))
      ↔ STABLE_RESPONSE_COUNT_THRESHOLD ≤ rc := by exact_mod_cast Iff.rfl
  have key : ScoreApplications.channel_signal_state
      (ScoreApplications.channelMetricsRow name oc cov rc) =
      some ((if rc = 0 then "no_signal"
             else if oc < MIN_CHANNEL_SAMPLE_SIZE then "insufficient_data"
             else if STABLE_RESPONSE_COUNT_THRESHOLD ≤ rc then "stable_signal"
             else "emerging_signal"),
            [("no_response_flag", Val.vbool (decide (rc = 0)))]) := by
    simp only [ScoreApplications.channel_signal_state, ho, hr, toNum?, hvz, hoq, hrq]
    by_cases hz : rc = 0 <;> by_cases h5 : oc < MIN_CHANNEL_SAMPLE_SIZE <;>
      by_cases h3 : STABLE_RESPONSE_COUNT_THRESHOLD ≤ rc <;> simp [hz, h5, h3]
  refine ⟨_, _, key, rfl, ?_, ?_, rfl⟩ <;>
    by_cases hz : rc = 0 <;> by_cases h5 : oc < MIN_CHANNEL_SAMPLE_SIZE <;>
      by_cases h3 : STABLE_RESPONSE_COUNT_THRESHOLD ≤ rc <;>
      (simp [hz, h5, h3]; try omega)

/-- Claim C3: for every input, the insight bundle never exceeds the sentence caps:
each application entry has at most 2 sentences, each channel entry at most 1, and
the portfolio list at most 3. -/
theorem claim3_bundle_sentence_caps (app_rows channel_rows : List Row)
    (portfolio_row : Row) (inc : Bool) :
    (ScoreApplications.assemble_insight_bundle app_rows channel_rows
        portfolio_row inc).portfolio.length ≤ 3
    ∧ (∀ e ∈ (ScoreApplications.assemble_insight_bundle app_rows channel_rows
          portfolio_row inc).applications, e.sentences.length ≤ 2)
    ∧ (∀ e ∈ (ScoreApplications.assemble_insight_bundle app_rows channel_rows
          portfolio_row inc).channels, e.sentences.length ≤ 1) := by
  refine ⟨?_, ?_, ?_⟩
  · simp only [ScoreApplications.assemble_insight_bundle,
      ScoreApplications.MAX_PORTFOLIO_SENTENCES, List.length_take]
    omega
  · intro e he
    simp only [ScoreApplications.assemble_insight_bundle, List.mem_filterMap] at he
    obtain ⟨r, _, hf⟩ := he
    by_cases hn : (ScoreApplications.describe_application (Row.get r "application_state")
        (truthy (Row.get r "has_no_follow_up")) (truthy (Row.get r "responded_flag"))).isEmpty
    · simp [hn] at hf
    · simp only [hn, Bool.false_eq_true, if_false, Option.some.injEq] at hf
      subst hf
      simp [ScoreApplications.MAX_APPLICATION_SENTENCES, List.length_take]
  · intro e he
    cases inc with
    | false =>
      simp [ScoreApplications.assemble_insight_bundle] at he
    | true =>
      simp only [ScoreApplications.assemble_insight_bundle, if_true,
        List.mem_filterMap] at he
      obtain ⟨r, _, hf⟩ := he
      by_cases hn : (ScoreApplications.describe_channel r).isEmpty
      · simp [hn] at hf
      · simp only [hn, Bool.false_eq_true, if_false, Option.some.injEq] at hf
        subst hf
        simp [ScoreApplications.MAX_CHANNEL_SENTENCES, List.length_take]

/-- Claim C4: for every portfolio row whose `portfolio_pattern` is "stalled", the
narrative returned by `describe_portfolio` never contains the high-idle secondary
sentence, even when the high-idle flag is set on the row. -/
theorem claim4_stalled_suppresses_high_idle (row : Row)
    (h : Row.get row "portfolio_pattern" = some (Val.vstr "stalled")) :
    "A sizable portion of applications have not been touched recently."
      ∉ ScoreApplications.describe_portfolio row := by
  intro hmem
  rcases describe_portfolio_mem row _ hmem with hp | ⟨f, sentence, hmemT, hseq, _, himp⟩
  · rw [h] at hp
    simp [ScoreApplications.lookupTemplate,
      ScoreApplications.PORTFOLIO_PATTERN_TEMPLATES, List.find?] at hp
  · have hf : f = "high_idle_portfolio_flag" := by
      simp only [ScoreApplications.PORTFOLIO_FLAG_TEMPLATES, List.mem_cons,
        List.not_mem_nil, or_false, Prod.mk.injEq] at hmemT
      rcases hmemT with ⟨hf, hsen⟩ | ⟨hf, hsen⟩ | ⟨hf, hsen⟩ | ⟨hf, hsen⟩ <;>
        first
          | exact hf
          | (rw [hsen] at hseq; exact absurd hseq (by decide))
    have hstall : isStrVal (Row.get row "portfolio_pattern") "stalled" = true := by
      rw [h]; rfl
    exact himp hstall hf

/-- Witness for claim C4: the concrete stalled row with the high-idle flag set. -/
theorem claim4_witness :
    Row.get rowStalledHighIdle "portfolio_pattern" = some (Val.vstr "stalled")
    ∧ "A sizable portion of applications have not been touched recently."
        ∉ ScoreApplications.describe_portfolio rowStalledHighIdle :=
  ⟨rfl, claim4_stalled_suppresses_high_idle rowStalledHighIdle rfl⟩

/-- Claim C5: along the actual pipeline, `describe_portfolio` never emits the
low-follow-up or high-idle secondary sentences on a row produced by
`portfolio_pattern_view`: the metrics view stores those booleans under
`low_follow_up_portfolio` / `high_idle_portfolio` while the assembler looks them up
under the `_flag`-suffixed keys, which are absent from the row. -/
theorem claim5_pipeline_flag_key_mismatch (db : DB) (row : Row)
    (h : ScoreApplications.portfolio_pattern_view db = some row) :
    "Follow-up activity has been limited across applications."
        ∉ ScoreApplications.describe_portfolio row
    ∧ "A sizable portion of applications have not been touched recently."
        ∉ ScoreApplications.describe_portfolio row := by
  simp only [ScoreApplications.portfolio_pattern_view] at h
  split at h
  · exact absurd h (by simp)
  · split at h
    · exact absurd h (by simp)
    · split at h
      · exact absurd h (by simp)
      · split at h
        · exact absurd h (by simp)
        · rw [Option.some.injEq] at h
          subst h
          have hl : Row.get (ScoreApplications.portfolio_metrics_view db)
              "low_follow_up_portfolio_flag" = none :=
            (portfolio_metrics_view_flag_keys_none db).1
          have hh : Row.get (ScoreApplications.portfolio_metrics_view db)
              "high_idle_portfolio_flag" = none :=
            (portfolio_metrics_view_flag_keys_none db).2
          constructor
          · intro hmem
            rcases describe_portfolio_mem _ _ hmem with
              hp | ⟨f, sentence, hmemT, hseq, htr, _⟩
            · obtain ⟨k, hk⟩ := lookupTemplate_mem_values _ _ _ hp
              simp [ScoreApplications.PORTFOLIO_PATTERN_TEMPLATES, Prod.mk.injEq] at hk
            · have hf : f = "low_follow_up_portfolio_flag" :=
                (portfolio_flag_template_inv f sentence hmemT).1 hseq.symm
              rw [hf] at htr
              simp only [Row.get_cons] at htr
              simp only [show (("channel_dependency_flag" == "low_follow_up_portfolio_flag") = true)
                  = False by simp, if_false] at htr
              simp only [show (("low_signal_environment_flag" == "low_follow_up_portfolio_flag") = true)
                  = False by simp, if_false] at htr
              simp only [show (("portfolio_pattern" == "low_follow_up_portfolio_flag") = true)
                  = False by simp, if_false] at htr
              rw [hl] at htr
              simp [truthy] at htr
          · intro hmem
            rcases describe_portfolio_mem _ _ hmem with
              hp | ⟨f, sentence, hmemT, hseq, htr, _⟩
            · obtain ⟨k, hk⟩ := lookupTemplate_mem_values _ _ _ hp
              simp [ScoreApplications.PORTFOLIO_PATTERN_TEMPLATES, Prod.mk.injEq] at hk
            · have hf : f = "high_idle_portfolio_flag" :=
                (portfolio_flag_template_inv f sentence hmemT).2 hseq.symm
              rw [hf] at htr
              simp only [Row.get_cons] at htr
              simp only [show (("channel_dependency_flag" == "high_idle_portfolio_flag") = true)
                  = False by simp, if_false] at htr
              simp only [show (("low_signal_environment_flag" == "high_idle_portfolio_flag") = true)
                  = False by simp, if_false] at htr
              simp only [show (("portfolio_pattern" == "high_idle_portfolio_flag") = true)
                  = False by simp, if_false] at htr
              rw [hh] at htr
              simp [truthy] at htr

/-- Counterexample to claim C6 as stated: with no status-history entries, the
`metrics_application.py` variant of `current_status` returns `None`, not the
default "open". -/
theorem claim6_counterexample :
    ScoreApplications.statusHistoryFor dbNoStatus 1 = []
    ∧ MetricsApplication.current_status dbNoStatus 1 = none
    ∧ MetricsApplication.current_status dbNoStatus 1 ≠ some "open" :=
  ⟨rfl, rfl, by simp [MetricsApplication.current_status,
    ScoreApplications.latest_status_entry, ScoreApplications.statusHistoryFor, dbNoStatus]⟩

/-- Claim C6 (amended): `score_applications.current_status` returns the status label
of a status-history entry with maximal timestamp and defaults to "open" when the
application has no entries; the `metrics_application.py` variant agrees on non-empty
history but returns `None` instead of "open" on empty history. -/
theorem claim6_current_status_amended (db : DB) (id : Nat) :
    (ScoreApplications.statusHistoryFor db id = [] →
      ScoreApplications.current_status db id = "open"
      ∧ MetricsApplication.current_status db id = none)
    ∧ (ScoreApplications.statusHistoryFor db id ≠ [] →
      ∃ e, e ∈ ScoreApplications.statusHistoryFor db id
        ∧ (∀ x ∈ ScoreApplications.statusHistoryFor db id, x.timestamp ≤ e.timestamp)
        ∧ ScoreApplications.current_status db id = e.status
        ∧ MetricsApplication.current_status db id = some e.status) := by
  cases hsh : ScoreApplications.statusHistoryFor db id with
  | nil =>
    refine ⟨fun _ => ?_, fun hne => absurd rfl hne⟩
    unfold ScoreApplications.current_status MetricsApplication.current_status
      ScoreApplications.latest_status_entry
    rw [hsh]
    exact ⟨rfl, rfl⟩
  | cons a as =>
    refine ⟨fun he => absurd he (by simp), fun _ => ?_⟩
    obtain ⟨hmem, hge, hall⟩ := latest_fold_spec a as
    refine ⟨as.foldl (fun acc x => if acc.timestamp < x.timestamp then x else acc) a,
      hmem, ?_, ?_, ?_⟩
    · intro x hx
      rcases List.mem_cons.mp hx with h1 | h1
      · rw [h1]; exact hge
      · exact hall x h1
    · unfold ScoreApplications.current_status ScoreApplications.latest_status_entry
      rw [hsh]
    · unfold MetricsApplication.current_status ScoreApplications.latest_status_entry
      rw [hsh]
      rfl

/-- Witness for claim C6: the empty-history store and the two-entry store. -/
theorem claim6_witness :
    (ScoreApplications.current_status dbNoStatus 1 = "open"
      ∧ MetricsApplication.current_status dbNoStatus 1 = none)
    ∧ ∃ e, e ∈ ScoreApplications.statusHistoryFor dbWithStatus 1
        ∧ (∀ x ∈ ScoreApplications.statusHistoryFor dbWithStatus 1,
            x.timestamp ≤ e.timestamp)
        ∧ ScoreApplications.current_status dbWithStatus 1 = e.status
        ∧ MetricsApplication.current_status dbWithStatus 1 = some e.status :=
  ⟨(claim6_current_status_amended dbNoStatus 1).1 rfl,
   (claim6_current_status_amended dbWithStatus 1).2
     (by rw [show ScoreApplications.statusHistoryFor dbWithStatus 1
           = [⟨1, "open", 5⟩, ⟨1, "closed", 9⟩] from rfl]; simp)⟩

/-- Counterexample to claim C7 as stated: with one outreach, one response and one
status entry, the `metrics_application.py` variant of `total_action_count` returns 2,
not the three-way sum 3 — it omits response events. -/
theorem claim7_counterexample :
    MetricsApplication.total_action_count dbOneOfEach 1 = 2
    ∧ ScoreApplications.total_outreach_count dbOneOfEach 1
        + ScoreApplications.response_count dbOneOfEach 1
        + ScoreApplications.status_change_count dbOneOfEach 1 = 3
    ∧ MetricsApplication.total_action_count dbOneOfEach 1
        ≠ ScoreApplications.total_outreach_count dbOneOfEach 1
          + ScoreApplications.response_count dbOneOfEach 1
          + ScoreApplications.status_change_count dbOneOfEach 1 :=
  ⟨rfl, rfl, by decide⟩

/-- Claim C7 (amended): `score_applications.total_action_count` is the sum of the
application's outreach-event, response-event and status-history counts, while the
`metrics_application.py` variant sums only status-history and outreach counts,
excluding response events. -/
theorem claim7_total_action_count_amended (db : DB) (id : Nat) :
    ScoreApplications.total_action_count db id
      = db.outreach_events.countP (fun e => e.application_id == id)
        + db.response_events.countP (fun e => e.application_id == id)
        + db.status_history.countP (fun e => e.application_id == id)
    ∧ MetricsApplication.total_action_count db id
      = db.status_history.countP (fun e => e.application_id == id)
        + db.outreach_events.countP (fun e => e.application_id == id) := by
  constructor <;>
    simp [ScoreApplications.total_action_count, MetricsApplication.total_action_count,
      ScoreApplications.total_outreach_count, ScoreApplications.response_count,
      ScoreApplications.status_change_count, List.countP_eq_length_filter]

/-- Witness for claim C5: the pipeline row of the empty event store. -/
theorem claim5_witness :
    "Follow-up activity has been limited across applications."
        ∉ ScoreApplications.describe_portfolio rowPipelineEmpty
    ∧ "A sizable portion of applications have not been touched recently."
        ∉ ScoreApplications.describe_portfolio rowPipelineEmpty :=
  claim5_pipeline_flag_key_mismatch dbEmpty rowPipelineEmpty (by with_unfolding_all rfl)

/-- Claim C8: on an empty application set, `portfolio_metrics_view` returns the
sentinel row (`applications_total = 0`, every other field `None`), and
`portfolio_pattern` on that sentinel returns "inactive" through the first rule —
the `None` short-circuit fires before any numeric comparison is attempted. -/
theorem claim8_empty_portfolio_inactive (db : DB) (h : db.applications = []) :
    ScoreApplications.portfolio_metrics_view db = ScoreApplications.portfolio_sentinel_row
    ∧ Row.get ScoreApplications.portfolio_sentinel_row "applications_total"
        = some (Val.vint 0)
    ∧ Row.get ScoreApplications.portfolio_sentinel_row "applications_per_week"
        = some Val.vnone
    ∧ ScoreApplications.portfolio_pattern ScoreApplications.portfolio_sentinel_row
        = some "inactive" := by
  have hv : ScoreApplications.application_metrics_view db = [] := by
    unfold ScoreApplications.application_metrics_view
    rw [h]
    rfl
  refine ⟨?_, rfl, rfl, rfl⟩
  simp only [ScoreApplications.portfolio_metrics_view, hv]
  rfl

/-- Witness for claim C8: the empty event store. -/
theorem claim8_witness :
    ScoreApplications.portfolio_metrics_view dbEmpty
      = ScoreApplications.portfolio_sentinel_row
    ∧ Row.get ScoreApplications.portfolio_sentinel_row "applications_total"
        = some (Val.vint 0)
    ∧ Row.get ScoreApplications.portfolio_sentinel_row "applications_per_week"
        = some Val.vnone
    ∧ ScoreApplications.portfolio_pattern ScoreApplications.portfolio_sentinel_row
        = some "inactive" :=
  claim8_empty_portfolio_inactive dbEmpty rfl

/-- Claim C9: for a non-empty application set, `applications_per_week` is
`applications_total / weeks_active` where `weeks_active` is computed from the span
between the extreme creation timestamps; for a day-span `d ≥ 0` it equals
`max 1 ⌈d / 7⌉` and is therefore never zero. -/
theorem claim9_weeks_active_spec :
    (∀ (db : DB) (mn mx : Nat),
      (db.applications.map (fun a => a.created_at)).min? = some mn →
      (db.applications.map (fun a => a.created_at)).max? = some mx →
      Row.get (ScoreApplications.portfolio_metrics_view db) "applications_per_week"
        = some (.vrat ((db.applications.length : ℚ)
            / (ScoreApplications.weeks_active mn mx : ℚ))))
    ∧ (∀ mn mx : Nat,
        ScoreApplications.weeks_active mn mx = max 1 ⌈((mx - mn : ℕ) : ℚ) / 7⌉₊
        ∧ 0 < ScoreApplications.weeks_active mn mx) := by
  constructor
  · intro db mn mx hmin hmax
    have hne : db.applications ≠ [] := by
      intro h
      rw [h] at hmin
      simp at hmin
    have hlen : (ScoreApplications.application_metrics_view db).length
        = db.applications.length := by
      unfold ScoreApplications.application_metrics_view
      rw [List.length_map]
    have hlen0 : ¬ (ScoreApplications.application_metrics_view db).length = 0 := by
      rw [hlen]
      simpa [List.length_eq_zero] using hne
    simp only [ScoreApplications.portfolio_metrics_view, if_neg hlen0]
    rw [hmin, hmax]
    simp only [Row.get_cons]
    norm_num
    rw [hlen]
    simp
  · intro mn mx
    refine ⟨?_, ?_⟩
    · unfold ScoreApplications.weeks_active
      rw [ceil_div_seven]
    · unfold ScoreApplications.weeks_active
      omega

/-- Witness for claim C9: two applications created ten days apart give
`weeks_active = 2` and two applications per two weeks. -/
theorem claim9_witness :
    Row.get (ScoreApplications.portfolio_metrics_view dbTwoApps) "applications_per_week"
      = some (.vrat ((dbTwoApps.applications.length : ℚ)
          / (ScoreApplications.weeks_active 0 10 : ℚ)))
    ∧ ScoreApplications.weeks_active 0 10 = 2 :=
  ⟨claim9_weeks_active_spec.1 dbTwoApps 0 10 rfl rfl, rfl⟩

/-- Claim C10: the orchestrator's application filter drops every row whose
`application_state` is "closed" when at least one row is not closed; when every row
is closed (or the list is empty) the list is returned unchanged. -/
theorem claim10_filter_active_applications (rows : List Row) :
    ((∃ r ∈ rows, isStrVal (Row.get r "application_state") "closed" = false) →
      ScoreApplications.filter_active_applications rows
        = rows.filter (fun r => !(isStrVal (Row.get r "application_state") "closed")))
    ∧ ((∀ r ∈ rows, isStrVal (Row.get r "application_state") "closed" = true) →
      ScoreApplications.filter_active_applications rows = rows) := by
  constructor
  · rintro ⟨r, hr, hstate⟩
    unfold ScoreApplications.filter_active_applications
    have hmem : r ∈ rows.filter
        (fun r => !(isStrVal (Row.get r "application_state") "closed")) :=
      List.mem_filter.mpr ⟨hr, by simp [hstate]⟩
    have hne := List.ne_nil_of_mem hmem
    simp only [List.isEmpty_iff, hne, if_false]
  · intro hall
    unfold ScoreApplications.filter_active_applications
    have hnil : rows.filter
        (fun r => !(isStrVal (Row.get r "application_state") "closed")) = [] := by
      rw [List.filter_eq_nil_iff]
      intro a ha
      simp [hall a ha]
    rw [hnil]
    rfl

/-- Witness for claim C10: one closed and one active row keep only the active row;
a list of only closed rows is returned unchanged. -/
theorem claim10_witness :
    ScoreApplications.filter_active_applications [rowClosedApp, rowActiveApp]
      = [rowActiveApp]
    ∧ ScoreApplications.filter_active_applications [rowClosedApp]
      = [rowClosedApp] := by
  constructor
  · rw [(claim10_filter_active_applications [rowClosedApp, rowActiveApp]).1
      ⟨rowActiveApp, by simp, rfl⟩]
    rfl
  · exact (claim10_filter_active_applications [rowClosedApp]).2
      (by intro r hr; simp at hr; subst hr; rfl)

/-- Witness for claim C3: the bundle caps hold at a concrete input. -/
theorem claim3_witness :
    (ScoreApplications.assemble_insight_bundle [rowClosedApp, rowActiveApp] []
        rowStalledHighIdle true).portfolio.length ≤ 3
    ∧ (∀ e ∈ (ScoreApplications.assemble_insight_bundle [rowClosedApp, rowActiveApp] []
          rowStalledHighIdle true).applications, e.sentences.length ≤ 2)
    ∧ (∀ e ∈ (ScoreApplications.assemble_insight_bundle [rowClosedApp, rowActiveApp] []
          rowStalledHighIdle true).channels, e.sentences.length ≤ 1) :=
  claim3_bundle_sentence_caps [rowClosedApp, rowActiveApp] [] rowStalledHighIdle true
